import Mathlib

/-!
# Verification of the retrieval-confidence decision workflow

A shallow embedding, in Lean 4, of the decision core of an intelligent
RAG question-answering system with dynamic web fallback:

* score normalization and relevance assessment
  (`src/utils/helpers.py`, `src/rag/retriever.py`),
* the insufficiency classifier over generated answer text
  (`src/graph/nodes.py`),
* answer assembly and query reformulation
  (`src/rag/answer_generator.py`),
* the LangGraph workflow state machine
  (`src/graph/state.py`, `src/graph/nodes.py`, `src/graph/workflow.py`).

Python floats are modelled as exact rationals (`ℚ`); Python dicts whose
key set varies are modelled as structures with `Option` fields (a `none`
field models an absent key).  External effects (the vector index, the
language model, the web-search provider) are passed in explicitly as an
environment record, so every node of the workflow becomes a pure
function on the state.  Exception branches that a collaborator already
converts into a degraded return value are modelled by `Option` replies
(`none` models the caught-failure branch).  The f-string `reason`
message of the relevance assessment is modelled as an inductive value
carrying the same data (the exact decimal rendering of the message is
presentation only).
-/

/-- A character used in several source strings; written by code so that
string literals in this file stay within the plain ASCII subset. -/
def apostrophe : Char := Char.ofNat 39

/-- Single-apostrophe string. -/
def apostropheS : String := String.mk [apostrophe]

/-! ## Data model -/

/-- A retrieved document (langchain `Document`): page content plus the
metadata keys the core reads.  `page = none` models a missing
`metadata['page']` key, `source = none` a missing `metadata['source']`. -/
structure Doc where
  content : String
  page : Option Nat
  src : Option String
deriving Repr, DecidableEq

/-- One entry of the source metadata produced by
`RAGRetriever.get_source_metadata`. -/
structure SourceMeta where
  page : Nat
  src : String
  preview : String
deriving Repr, DecidableEq

/-- A web search result as returned by
`WebSearcher.search_and_extract`. -/
structure WebResult where
  title : String
  url : String
  content : String
deriving Repr, DecidableEq

/-- A web source entry (`{'url': ..., 'title': ...}`) recorded by
`AnswerGenerator.generate_web_answer`. -/
structure WebSource where
  url : String
  title : String
deriving Repr, DecidableEq

/-! ## `src/utils/helpers.py` -/

/-- `calculate_relevance_score` from `src/utils/helpers.py`: weighted
average of the ranked similarity scores with weights `1/(i+1)`. -/
def calculate_relevance_score (similarity_scores : List ℚ) : ℚ :=
  if similarity_scores = [] then 0
  else
    let weights := (List.range similarity_scores.length).map (fun i : ℕ => (1 : ℚ) / ((i : ℚ) + 1))
    let weighted_sum := ((similarity_scores.zip weights).map (fun p => p.1 * p.2)).sum
    let weight_total := weights.sum
    if 0 < weight_total then weighted_sum / weight_total else 0

/-- `format_citations(sources, source_type="pdf")` from
`src/utils/helpers.py`, specialised to the pdf branch. -/
def format_citations_pdf (sources : List SourceMeta) : String :=
  if sources = [] then "No sources available."
  else
    String.intercalate "\n"
      ((sources.enumFrom 1).map (fun p => "[" ++ toString p.1 ++ "] Page " ++ toString p.2.page))

/-- `format_citations(sources, source_type="web")` from
`src/utils/helpers.py`, specialised to the web branch. -/
def format_citations_web (sources : List WebSource) : String :=
  if sources = [] then "No sources available."
  else
    String.intercalate "\n"
      ((sources.enumFrom 1).map (fun p => "[" ++ toString p.1 ++ "] " ++ p.2.title ++ " - " ++ p.2.url))

/-! ## `src/rag/retriever.py` -/

/-- Score normalization applied in `RAGRetriever.retrieve`:
`similarity = 1 / (1 + d)` for a raw L2 distance `d`. -/
def normalize_score (d : ℚ) : ℚ := 1 / (1 + d)

/-- `RAGRetriever.retrieve`: split the vector-store result pairs into
documents and scores and normalize each distance.  The vector store is
passed in as the list of `(document, distance)` pairs it returned. -/
def retrieve (vsResults : List (Doc × ℚ)) : List Doc × List ℚ :=
  if vsResults = [] then ([], [])
  else (vsResults.map (fun r => r.1), vsResults.map (fun r => normalize_score r.2))

/-- The `reason` message of a relevance assessment, carrying the data of
the corresponding f-string in `RAGRetriever.assess_relevance`. -/
inductive AssessReason where
  | noDocumentsRetrieved
  | highRelevance (top_score : ℚ)
  | topBelowThreshold (top_score relevance_threshold : ℚ)
  | confidenceBelowMinimum (overall_score min_confidence : ℚ)
deriving Repr, DecidableEq

/-- The relevance-assessment dict built by
`RAGRetriever.assess_relevance`.  `num_documents = none` models the
absence of the `'num_documents'` key (the empty-input branch of the
source omits it). -/
structure Assessment where
  is_relevant : Bool
  confidence : ℚ
  reason : AssessReason
  top_score : ℚ
  avg_score : ℚ
  num_documents : Option Nat
deriving Repr, DecidableEq

/-- Python `max` over a non-empty list (first element as accumulator),
as used for `top_score = max(similarity_scores)`; `0` on `[]` (unused
there, since the source only evaluates it on non-empty lists). -/
def listMax : List ℚ → ℚ
  | [] => 0
  | s :: rest => rest.foldl max s

/-- `RAGRetriever.assess_relevance`.  The two thresholds are the
instance fields `relevance_threshold` and `min_confidence` read from
settings at construction. -/
def assess_relevance (relevance_threshold min_confidence : ℚ)
    (documents : List Doc) (scores : List ℚ) : Assessment :=
  if documents = [] ∨ scores = [] then
    { is_relevant := false
      confidence := 0
      reason := .noDocumentsRetrieved
      top_score := 0
      avg_score := 0
      num_documents := none }
  else
    let similarity_scores := scores
    let top_score := listMax similarity_scores
    let avg_score := similarity_scores.sum / similarity_scores.length
    let overall_score := calculate_relevance_score similarity_scores
    let is_relevant : Bool :=
      decide (relevance_threshold ≤ top_score) && decide (min_confidence ≤ overall_score)
    let reason : AssessReason :=
      if is_relevant then .highRelevance top_score
      else if top_score < relevance_threshold then .topBelowThreshold top_score relevance_threshold
      else .confidenceBelowMinimum overall_score min_confidence
    { is_relevant := is_relevant
      confidence := overall_score
      reason := reason
      top_score := top_score
      avg_score := avg_score
      num_documents := some documents.length }

/-- `RAGRetriever.format_context`: concatenate the passages with a
`[Document i - Page p]` header each, rank order preserved. -/
def format_context (documents : List Doc) : String :=
  if documents = [] then ""
  else
    String.intercalate "\n"
      ((documents.enumFrom 1).map (fun p =>
        "[Document " ++ toString p.1 ++ " - Page " ++
          (match p.2.page with | some n => toString n | none => "Unknown") ++ "]\n" ++
          p.2.content.trim ++ "\n"))

/-- `RAGRetriever.get_source_metadata`, written with the `seen_pages`
set as an explicit accumulator.  A document whose `page` metadata is
missing or `0` fails the Python truthiness test `if page and ...` and
produces no entry. -/
def get_source_metadata_go (seen : List Nat) : List Doc → List SourceMeta
  | [] => []
  | d :: rest =>
    match d.page with
    | some p =>
      if p ≠ 0 ∧ p ∉ seen then
        { page := p
          src := d.src.getD "Unknown"
          preview := d.content.take 200 ++ "..." } :: get_source_metadata_go (p :: seen) rest
      else get_source_metadata_go seen rest
    | none => get_source_metadata_go seen rest

/-- `RAGRetriever.get_source_metadata` (entry point, empty `seen_pages`). -/
def get_source_metadata (documents : List Doc) : List SourceMeta :=
  get_source_metadata_go [] documents

/-! ## `src/graph/nodes.py` — the insufficiency classifier

Each pattern of `_answer_indicates_insufficient_info` is one of

* a literal phrase (`"unable to provide"`, ...), or
* `X.*Y` — phrase `X`, then any run of non-newline characters, then
  phrase `Y` (the regex `.` does not cross a newline) — where `X` may
  carry alternatives (for `don'?t`).

`(?i)` is modelled by lowercasing the scanned text; the pattern phrases
are already lowercase.
-/

/-- Does `y` occur in `l` preceded only by non-newline characters?
(This is what the tail `.*Y` of a pattern may consume after the head
matched.) -/
def occursNoNewline (y : List Char) : List Char → Bool
  | [] => y.isPrefixOf ([] : List Char)
  | c :: rest => y.isPrefixOf (c :: rest) || (!(c = Char.ofNat 10) && occursNoNewline y rest)

/-- Does the regex `X.*Y` (with `X`, `Y` literal phrases) match
somewhere in `l`?  Tries every start position for `X`. -/
def searchSeq (x y : List Char) : List Char → Bool
  | [] => x.isPrefixOf ([] : List Char) && occursNoNewline y ([] : List Char)
  | c :: rest =>
    (x.isPrefixOf (c :: rest) && occursNoNewline y ((c :: rest).drop x.length))
    || searchSeq x y rest

/-- Does the literal phrase `x` occur anywhere in `l`? -/
def containsSub (x : List Char) : List Char → Bool
  | [] => x.isPrefixOf ([] : List Char)
  | c :: rest => x.isPrefixOf (c :: rest) || containsSub x rest

/-- One pattern of the classifier's fixed list. -/
inductive InsuffPat where
  | seqPat (alts : List (List Char)) (tail : List Char)
  | litPat (x : List Char)
deriving Repr

/-- Regex search of one pattern in (already lowercased) text. -/
def patMatches (l : List Char) : InsuffPat → Bool
  | .seqPat alts tail => alts.any (fun x => searchSeq x tail l)
  | .litPat x => containsSub x l

/-- The fixed pattern list `insufficient_patterns` of
`_answer_indicates_insufficient_info` (`src/graph/nodes.py`). -/
def insufficient_patterns : List InsuffPat :=
  [ .seqPat [("don" ++ apostropheS ++ "t have").data, "dont have".data] "information".data
  , .seqPat ["does not contain".data] "information".data
  , .seqPat ["not mentioned in".data] "context".data
  , .seqPat ["context does not".data] "enough".data
  , .litPat "unable to provide".data
  , .litPat "cannot answer".data
  , .litPat "no information about".data
  , .seqPat ["not included in".data] "context".data
  , .seqPat ["unfortunately".data] "context".data ]

/-- `_answer_indicates_insufficient_info` from `src/graph/nodes.py`:
true iff at least one fixed pattern matches the answer text
(case-insensitively). -/
def answer_indicates_insufficient_info (answer : String) : Bool :=
  insufficient_patterns.any (patMatches (answer.data.map Char.toLower))

/-! ## `src/rag/answer_generator.py` -/

/-- Result record of `AnswerGenerator.generate_rag_answer`. -/
structure RagGenResult where
  answer : String
  source_type : String
  sources : List SourceMeta
  citations : String
  success : Bool
deriving Repr, DecidableEq

/-- `AnswerGenerator.generate_rag_answer`.  `reply` is the language
model's text; `none` models the caught generation failure.  The
`question` and `context` arguments only feed the prompt. -/
def gen_rag_answer (reply : Option String) (question context : String)
    (sources : List SourceMeta) : RagGenResult :=
  match reply with
  | some answer =>
    { answer := answer
      source_type := "knowledge_base"
      sources := sources
      citations := format_citations_pdf sources
      success := true }
  | none =>
    { answer := "I apologize, but I encountered an error generating the answer."
      source_type := "knowledge_base"
      sources := []
      citations := ""
      success := false }

/-- Result record of `AnswerGenerator.generate_web_answer`. -/
structure WebGenResult where
  answer : String
  source_type : String
  sources : List WebSource
  citations : String
  success : Bool
deriving Repr, DecidableEq

/-- `AnswerGenerator.generate_web_answer`: on success, record the url
and title of at most the first 5 web results as sources. -/
def gen_web_answer (reply : Option String) (question : String)
    (web_results : List WebResult) : WebGenResult :=
  match reply with
  | some answer =>
    let sources := (web_results.take 5).map (fun r => WebSource.mk r.url r.title)
    { answer := answer
      source_type := "web"
      sources := sources
      citations := format_citations_web sources
      success := true }
  | none =>
    { answer := "I apologize, but I encountered an error generating the answer from web sources."
      source_type := "web"
      sources := []
      citations := ""
      success := false }

/-- Python `str.strip()`: remove leading and trailing whitespace. -/
def stripWhitespace (l : List Char) : List Char :=
  ((l.dropWhile Char.isWhitespace).reverse.dropWhile Char.isWhitespace).reverse

/-- Python `str.strip(chars)`: remove any run of the given characters
from both ends. -/
def stripChars (cs : List Char) (l : List Char) : List Char :=
  ((l.dropWhile (· ∈ cs)).reverse.dropWhile (· ∈ cs)).reverse

/-- The interrogative alternatives of `_simple_reformulation`, in the
order the regex alternation tries them. -/
def interrogative_words : List String :=
  ["what", "how", "when", "where", "why", "who", "which", "can you", "please"]

/-- Does the word `w`, followed by at least one whitespace character,
sit at the head of `l`?  (The regex `^(w)\s+`.) -/
def leadMatches (w : List Char) (l : List Char) : Bool :=
  w.isPrefixOf l &&
    (match l.drop w.length with
     | c :: _ => c.isWhitespace
     | [] => false)

/-- Strip a leading interrogative word plus the following whitespace
run, per the regex `^(what|how|...)\s+` of `_simple_reformulation`. -/
def stripInterrogative : List String → List Char → List Char
  | [], l => l
  | w :: ws, l =>
    if leadMatches w.data l then (l.drop w.data.length).dropWhile Char.isWhitespace
    else stripInterrogative ws l

/-- Strip one trailing question mark (the regex `\?$`). -/
def stripTrailingQuestion (l : List Char) : List Char :=
  match l.reverse with
  | c :: rest => if c = Char.ofNat 63 then rest.reverse else l
  | [] => l

/-- `AnswerGenerator._simple_reformulation`: lowercase, strip a leading
interrogative word, strip a trailing question mark, strip whitespace. -/
def simple_reformulation (question : String) : String :=
  let lowered := question.data.map Char.toLower
  let q1 := stripInterrogative interrogative_words lowered
  let q2 := stripTrailingQuestion q1
  String.mk (stripWhitespace q2)

/-- Python `str.replace(' ', '').isalnum()`: after removing all space
characters, the text is non-empty and alphanumeric throughout. -/
def isAlnumIgnoringSpaces (l : List Char) : Bool :=
  let r := l.filter (· ≠ ' ')
  !(r = []) && r.all Char.isAlphanum

/-- `AnswerGenerator.reformulate_query_for_web`.  `reply = some c`
models the model responding with `c`; `reply = none` the caught
invocation failure that falls straight back to
`_simple_reformulation`. -/
def reformulate_query_for_web (reply : Option String) (question : String) : String :=
  match reply with
  | some content =>
    let stripped := stripWhitespace content.data
    let reformulated := stripChars [Char.ofNat 34, apostrophe] stripped
    if reformulated.length < 3 ∨ ¬ isAlnumIgnoringSpaces reformulated then
      simple_reformulation question
    else String.mk reformulated
  | none => simple_reformulation question

/-! ## `src/graph/state.py` — the workflow state

The `metadata` dict is modelled by one `Option` field per key the core
ever writes (`fallback_notification`, `confidence`, `num_sources`);
`none` models an absent key.  `relevance_assessment` starts as the
empty dict, modelled by `none`. -/

structure GState where
  question : String
  reformulated_query : Option String
  retrieved_documents : List Doc
  retrieval_scores : List ℚ
  relevance_assessment : Option Assessment
  is_knowledge_base_sufficient : Bool
  needs_web_fallback : Bool
  rag_context : Option String
  rag_sources : List SourceMeta
  web_search_query : Option String
  web_results : List WebResult
  web_sources : List WebSource
  answer : String
  source_type : String
  citations : String
  error : Option String
  md_fallback_notification : Option String
  md_confidence : Option ℚ
  md_num_sources : Option Nat
deriving Repr, DecidableEq

/-- `create_initial_state` from `src/graph/state.py`. -/
def create_initial_state (question : String) : GState :=
  { question := question
    reformulated_query := none
    retrieved_documents := []
    retrieval_scores := []
    relevance_assessment := none
    is_knowledge_base_sufficient := false
    needs_web_fallback := false
    rag_context := none
    rag_sources := []
    web_search_query := none
    web_results := []
    web_sources := []
    answer := ""
    source_type := ""
    citations := ""
    error := none
    md_fallback_notification := none
    md_confidence := none
    md_num_sources := none }

/-- One workflow run's external effects: the vector-store result for
the question, the language model's replies on the three prompts it can
receive, and the web-search results.  `none` replies model caught
collaborator failures; a failed or empty web search is the empty
result list. -/
structure Env where
  vsResults : List (Doc × ℚ)
  ragReply : Option String
  reformReply : Option String
  webResults : List WebResult
  webReply : Option String

/-- `settings.RELEVANCE_THRESHOLD` (0.50). -/
def RELEVANCE_THRESHOLD : ℚ := 1 / 2

/-- `settings.MIN_CONFIDENCE_SCORE` (0.40). -/
def MIN_CONFIDENCE_SCORE : ℚ := 2 / 5

/-! ## `src/graph/nodes.py` — the nodes -/

/-- `WorkflowNodes.retrieve_from_kb` (non-exception path): retrieve,
assess, and record documents, scores, assessment and the sufficiency
verdict; context and source metadata only when documents came back. -/
def retrieve_from_kb (env : Env) (state : GState) : GState :=
  let ra := retrieve env.vsResults
  let documents := ra.1
  let assessment := assess_relevance RELEVANCE_THRESHOLD MIN_CONFIDENCE_SCORE documents ra.2
  let state := { state with
    retrieved_documents := documents
    retrieval_scores := [assessment.top_score]
    relevance_assessment := some assessment
    is_knowledge_base_sufficient := assessment.is_relevant }
  if documents ≠ [] then
    { state with
      rag_context := some (format_context documents)
      rag_sources := get_source_metadata documents }
  else state

/-- `WorkflowNodes.generate_rag_answer`: generate the KB answer, then
run the insufficiency classifier on the produced text; when it fires,
force the sufficiency flag off and request the web fallback. -/
def generate_rag_answer_node (env : Env) (state : GState) : GState :=
  let result := gen_rag_answer env.ragReply state.question (state.rag_context.getD "") state.rag_sources
  let state := { state with
    answer := result.answer
    source_type := result.source_type
    citations := result.citations }
  if answer_indicates_insufficient_info result.answer then
    { state with
      is_knowledge_base_sufficient := false
      needs_web_fallback := true }
  else state

/-- `WorkflowNodes.notify_user_fallback`: attach the fixed fallback
notice to the metadata map; nothing else changes. -/
def notify_user_fallback (state : GState) : GState :=
  { state with
    md_fallback_notification := some
      ("⚠️ The information was not found in the knowledge base. " ++
       "Searching the web for an answer...") }

/-- `WorkflowNodes.search_web`: reformulate the question and record the
web-search results (a failed search is recorded as the empty list). -/
def search_web_node (env : Env) (state : GState) : GState :=
  let reformulated := reformulate_query_for_web env.reformReply state.question
  { state with
    web_search_query := some reformulated
    web_results := env.webResults }

/-- `WorkflowNodes.generate_web_answer`.  The second component reports
whether the language model was invoked: the zero-results branch returns
before any generation. -/
def generate_web_answer_node (env : Env) (state : GState) : GState × Bool :=
  if state.web_results = [] then
    ({ state with
       answer := "I apologize, but I couldn" ++ apostropheS ++
         "t find sufficient information in either the knowledge base or the web to answer your question."
       source_type := "none" }, false)
  else
    let result := gen_web_answer env.webReply state.question state.web_results
    ({ state with
       answer := result.answer
       source_type := result.source_type
       citations := result.citations
       web_sources := result.sources }, true)

/-- `WorkflowNodes.format_final_output`: derived metadata —
`confidence` from the recorded assessment (`0.0` when none was
recorded), `num_sources` as the length of `rag_sources or web_sources`
(Python `or`: the KB source list wins whenever it is non-empty). -/
def format_final_output (state : GState) : GState :=
  { state with
    md_confidence := some (match state.relevance_assessment with
      | some a => a.confidence
      | none => 0)
    md_num_sources := some (if state.rag_sources ≠ [] then state.rag_sources.length
      else state.web_sources.length) }

/-! ## `src/graph/workflow.py` — the state machine -/

/-- Node labels, for the trace of a run. -/
inductive NodeTag where
  | retrieveKb
  | generateRagAnswer
  | notifyFallback
  | searchWeb
  | generateWebAnswer
  | formatOutput
deriving Repr, DecidableEq

/-- Target of the conditional edge out of `retrieve_kb`. -/
inductive RouteRetrieval where
  | generateRag
  | fallbackToWeb
deriving Repr, DecidableEq

/-- Target of the conditional edge out of `generate_rag_answer`. -/
inductive RouteRagAnswer where
  | useRag
  | fallbackToWeb
deriving Repr, DecidableEq

/-- `QAWorkflow._route_after_retrieval`. -/
def route_after_retrieval (state : GState) : RouteRetrieval :=
  if state.is_knowledge_base_sufficient then .generateRag else .fallbackToWeb

/-- `QAWorkflow._route_after_rag_answer`. -/
def route_after_rag_answer (state : GState) : RouteRagAnswer :=
  if state.needs_web_fallback then .fallbackToWeb else .useRag

/-- The unconditional web-fallback tail of the graph:
`notify_fallback → search_web → generate_web_answer → format_output`. -/
def webPath (env : Env) (state : GState) : GState × List NodeTag :=
  let s1 := notify_user_fallback state
  let s2 := search_web_node env s1
  let s3 := (generate_web_answer_node env s2).1
  (format_final_output s3,
   [.notifyFallback, .searchWeb, .generateWebAnswer, .formatOutput])

/-- One full run of the compiled graph on a question, following the
edges of `QAWorkflow._build_graph`; returns the terminal state and the
sequence of nodes executed. -/
def runWorkflow (env : Env) (question : String) : GState × List NodeTag :=
  let s0 := create_initial_state question
  let s1 := retrieve_from_kb env s0
  match route_after_retrieval s1 with
  | .generateRag =>
    let s2 := generate_rag_answer_node env s1
    match route_after_rag_answer s2 with
    | .useRag =>
      (format_final_output s2, [.retrieveKb, .generateRagAnswer, .formatOutput])
    | .fallbackToWeb =>
      let r := webPath env s2
      (r.1, .retrieveKb :: .generateRagAnswer :: r.2)
  | .fallbackToWeb =>
    let r := webPath env s1
    (r.1, .retrieveKb :: r.2)

/-! ## Specification-side definitions

These definitions follow the words of the specification (not the
source); the theorems below compare the source embedding against
them. -/

/-- The confidence formula as the specification states it:
`confidence = Σ(score_i · weight_i) / Σ(weight_i)` with
`weight_i = 1/(rank_i+1)` for 0-indexed ranks. -/
def specConfidence (scores : List ℚ) : ℚ :=
  (∑ i ∈ Finset.range scores.length, scores.getD i 0 * (1 / ((i : ℚ) + 1))) /
  (∑ i ∈ Finset.range scores.length, (1 : ℚ) / ((i : ℚ) + 1))

/-- First-occurrence deduplication of a list of page locators, skipping
locators already `seen` — the reference order for
`get_source_metadata`. -/
def dedupFirst (seen : List Nat) : List Nat → List Nat
  | [] => []
  | p :: rest => if p ∈ seen then dedupFirst seen rest else p :: dedupFirst (p :: seen) rest

/-- The page locator of a document as the Python truthiness test
`if page and ...` sees it: `none` when the key is missing or the page
is `0`. -/
def truthyPage (d : Doc) : Option Nat :=
  match d.page with
  | some p => if p ≠ 0 then some p else none
  | none => none

/-- Proof-layer helper: the rank-weighted sum `Σ s_i · g i` of a score
list, with the weight function shifted on each step. -/
def wsum (g : ℕ → ℚ) : List ℚ → ℚ
  | [] => 0
  | s :: rest => s * g 0 + wsum (fun i => g (i + 1)) rest

/-! ## Concrete inputs for witnesses and counterexamples -/

/-- The first classifier input named by the specification. -/
def inputA : String :=
  "I don" ++ apostropheS ++ "t have enough information in the context to answer this."

/-- The second classifier input named by the specification. -/
def inputB : String := "The capital of France is Paris [Page 3]."

/-- A knowledge-base passage on page 1. -/
def doc1 : Doc := { content := "France facts.", page := some 1, src := some "kb.pdf" }

/-- The source-metadata entry `get_source_metadata` builds for `doc1`. -/
def meta1 : SourceMeta :=
  { page := 1, src := "kb.pdf", preview := "France facts.".take 200 ++ "..." }

/-- A document without a `page` metadata key. -/
def docNoPage : Doc := { content := "intro text", page := none, src := some "kb.pdf" }

/-- A document whose `page` metadata is the falsy value `0`. -/
def docPage0 : Doc := { content := "page zero text", page := some 0, src := some "kb.pdf" }

/-- A first web search result. -/
def w1 : WebResult :=
  { title := "Paris", url := "https://a.example", content := "Paris is the capital." }

/-- A second web search result. -/
def w2 : WebResult :=
  { title := "France", url := "https://b.example", content := "France info." }

/-- A question used by the concrete runs. -/
def q5 : String := "What is the capital of France?"

/-- Environment of a run where the knowledge base scores as sufficient,
the generated KB answer trips the insufficiency classifier, and the web
search then returns two results. -/
def envC5 : Env :=
  { vsResults := [(doc1, 0)]
    ragReply := some inputA
    reformReply := some "capital of France"
    webResults := [w1, w2]
    webReply := some "The capital of France is Paris." }

/-- Same run, but the web search comes back empty. -/
def envC10 : Env := { envC5 with webResults := [] }

/-- An environment in which every collaborator fails or returns
nothing. -/
def envEmpty : Env :=
  { vsResults := [], ragReply := none, reformReply := none, webResults := [], webReply := none }

/-! ## Proof-layer lemmas -/

theorem sum_zip_range_map_eq_wsum (g : ℕ → ℚ) (scores : List ℚ) :
    ((scores.zip ((List.range scores.length).map g)).map (fun p => p.1 * p.2)).sum
      = wsum g scores := by
  induction scores generalizing g with
  | nil => simp [wsum]
  | cons s rest ih =>
    simp only [List.length_cons, List.range_succ_eq_map, List.map_cons, List.map_map,
      List.zip_cons_cons, List.sum_cons, wsum]
    rw [← ih (fun i => g (i + 1))]
    simp [Function.comp_def, Nat.succ_eq_add_one]

theorem finset_sum_getD_eq_wsum (g : ℕ → ℚ) (scores : List ℚ) :
    (∑ i ∈ Finset.range scores.length, scores.getD i 0 * g i) = wsum g scores := by
  induction scores generalizing g with
  | nil => simp [wsum]
  | cons s rest ih =>
    rw [List.length_cons, Finset.sum_range_succ']
    simp only [List.getD_cons_succ, List.getD_cons_zero, wsum]
    rw [ih (fun i => g (i + 1))]
    ring

theorem range_map_sum_eq_finset (g : ℕ → ℚ) (n : ℕ) :
    ((List.range n).map g).sum = ∑ i ∈ Finset.range n, g i := by
  induction n with
  | zero => simp
  | succ n ih => rw [List.range_succ, Finset.sum_range_succ, List.map_append, List.sum_append, ih]; simp

theorem weight_total_pos (n : ℕ) (hn : 0 < n) :
    0 < ((List.range n).map (fun i : ℕ => (1 : ℚ) / ((i : ℚ) + 1))).sum := by
  rw [range_map_sum_eq_finset]
  apply Finset.sum_pos
  · intro i _
    positivity
  · exact Finset.nonempty_range_iff.mpr (Nat.pos_iff_ne_zero.mp hn)

theorem calculate_eq_specConfidence (scores : List ℚ) (h : scores ≠ []) :
    calculate_relevance_score scores = specConfidence scores := by
  unfold calculate_relevance_score specConfidence
  rw [if_neg h, if_pos (weight_total_pos _ (List.length_pos.mpr h))]
  rw [sum_zip_range_map_eq_wsum, range_map_sum_eq_finset, finset_sum_getD_eq_wsum]

theorem foldl_max_init_le (l : List ℚ) (a : ℚ) : a ≤ l.foldl max a := by
  induction l generalizing a with
  | nil => simp
  | cons b l ih => exact le_trans (le_max_left a b) (ih (max a b))

theorem mem_le_foldl_max (l : List ℚ) (a x : ℚ) (hx : x ∈ l) : x ≤ l.foldl max a := by
  induction l generalizing a with
  | nil => cases hx
  | cons b l ih =>
    rcases List.mem_cons.mp hx with rfl | h
    · exact le_trans (le_max_right a x) (foldl_max_init_le l (max a x))
    · exact ih (max a b) h

theorem foldl_max_mem (l : List ℚ) (a : ℚ) : l.foldl max a = a ∨ l.foldl max a ∈ l := by
  induction l generalizing a with
  | nil => left; rfl
  | cons b l ih =>
    rcases ih (max a b) with h | h
    · rcases max_choice a b with hm | hm
      · left; rw [List.foldl_cons, h, hm]
      · right; rw [List.foldl_cons, h, hm]; exact List.mem_cons_self b l
    · right; exact List.mem_cons_of_mem b h

theorem listMax_mem (s : ℚ) (rest : List ℚ) : listMax (s :: rest) ∈ s :: rest := by
  simp only [listMax]
  rcases foldl_max_mem rest s with h | h
  · rw [h]; exact List.mem_cons_self s rest
  · exact List.mem_cons_of_mem s h

theorem le_listMax (s : ℚ) (rest : List ℚ) (x : ℚ) (hx : x ∈ s :: rest) :
    x ≤ listMax (s :: rest) := by
  simp only [listMax]
  rcases List.mem_cons.mp hx with rfl | h
  · exact foldl_max_init_le rest x
  · exact mem_le_foldl_max rest s x h

/-! ## Claim theorems -/

/-- C3: for every distance `d ≥ 0` the normalized score `1/(1+d)` lies
in `(0, 1]`, equals exactly `1` at `d = 0`, and is strictly decreasing:
`d1 < d2` implies `normalize_score d2 < normalize_score d1`. -/
theorem score_normalization_bounds_and_strict_decrease (d1 d2 : ℚ)
    (h1 : 0 ≤ d1) (h2 : d1 < d2) :
    normalize_score 0 = 1 ∧
    0 < normalize_score d1 ∧ normalize_score d1 ≤ 1 ∧
    normalize_score d2 < normalize_score d1 := by
  have hp1 : 0 < 1 + d1 := by linarith
  have hp2 : 0 < 1 + d2 := by linarith
  unfold normalize_score
  refine ⟨by norm_num, by positivity, ?_, ?_⟩
  · rw [div_le_one hp1]; linarith
  · exact one_div_lt_one_div_of_lt hp1 (by linarith)

/-- Witness for C3 at `d1 = 1`, `d2 = 2`. -/
theorem score_normalization_bounds_and_strict_decrease_witness :
    (0 : ℚ) ≤ 1 ∧ (1 : ℚ) < 2 ∧
    (normalize_score 0 = 1 ∧
     0 < normalize_score 1 ∧ normalize_score 1 ≤ 1 ∧
     normalize_score 2 < normalize_score 1) :=
  ⟨by norm_num, by norm_num,
   score_normalization_bounds_and_strict_decrease 1 2 (by norm_num) (by norm_num)⟩

/-- C2: the relevance assessment of an empty input is insufficient with
confidence `0`; on a non-empty score list the confidence is exactly the
rank-weighted average `Σ s_i/(i+1) / Σ 1/(i+1)` (so a single score `s`
gives confidence `s`, and `[9/10, 1/10]` gives `(95/100)/(3/2)`), and
the sufficiency verdict holds iff the maximal score reaches
`relevance_threshold` and the confidence reaches `min_confidence`. -/
theorem relevance_assessment_confidence_formula_and_gate
    (thr minc : ℚ) (docs : List Doc) (scores : List ℚ)
    (hd : docs ≠ []) (hs : scores ≠ []) :
    ((assess_relevance thr minc [] []).is_relevant = false ∧
     (assess_relevance thr minc [] []).confidence = 0) ∧
    (assess_relevance thr minc docs scores).confidence = specConfidence scores ∧
    (∀ s : ℚ, (assess_relevance thr minc docs [s]).confidence = s) ∧
    (assess_relevance thr minc docs [9/10, 1/10]).confidence = (95/100) / (3/2) ∧
    ((assess_relevance thr minc docs scores).is_relevant = true ↔
      thr ≤ (assess_relevance thr minc docs scores).top_score ∧
      minc ≤ (assess_relevance thr minc docs scores).confidence) ∧
    (assess_relevance thr minc docs scores).top_score ∈ scores ∧
    ∀ x ∈ scores, x ≤ (assess_relevance thr minc docs scores).top_score := by
  have hcond : ¬(docs = [] ∨ scores = []) := by
    rintro (h | h) <;> [exact hd h; exact hs h]
  obtain ⟨s0, rest, rfl⟩ := List.exists_cons_of_ne_nil hs
  refine ⟨⟨by simp [assess_relevance], by simp [assess_relevance]⟩, ?_, ?_, ?_, ?_, ?_, ?_⟩
  · simp only [assess_relevance, if_neg hcond]
    exact calculate_eq_specConfidence _ hs
  · intro s
    have hcond1 : ¬(docs = [] ∨ [s] = []) := by
      rintro (h | h)
      · exact hd h
      · cases h
    simp only [assess_relevance, if_neg hcond1]
    rw [calculate_eq_specConfidence [s] (by simp), specConfidence]
    norm_num
  · have hcond2 : ¬(docs = [] ∨ ([9/10, 1/10] : List ℚ) = []) := by
      rintro (h | h)
      · exact hd h
      · cases h
    simp only [assess_relevance, if_neg hcond2]
    rw [calculate_eq_specConfidence _ (by simp), specConfidence]
    rw [show ([9/10, 1/10] : List ℚ).length = 2 from rfl]
    rw [Finset.sum_range_succ, Finset.sum_range_succ, Finset.sum_range_zero,
      Finset.sum_range_succ, Finset.sum_range_succ, Finset.sum_range_zero]
    norm_num
  · simp only [assess_relevance, if_neg hcond]
    simp [Bool.and_eq_true, decide_eq_true_iff]
  · simp only [assess_relevance, if_neg hcond]
    exact listMax_mem s0 rest
  · intro x hx
    simp only [assess_relevance, if_neg hcond]
    exact le_listMax s0 rest x hx

/-- Witness for C2 at `thr = 1/2`, `minc = 2/5`, one document and the
score list `[9/10, 1/10]`. -/
theorem relevance_assessment_confidence_formula_and_gate_witness :
    ([doc1] : List Doc) ≠ [] ∧ ([(9:ℚ)/10, 1/10] : List ℚ) ≠ [] ∧
    (assess_relevance (1/2) (2/5) [doc1] [9/10, 1/10]).confidence =
      specConfidence [9/10, 1/10] :=
  ⟨by simp, by simp,
   (relevance_assessment_confidence_formula_and_gate (1/2) (2/5) [doc1] [9/10, 1/10]
     (by simp) (by simp)).2.1⟩

/-- C6 counterexample: on the empty passage list the assessment record
omits the passage-count field entirely (`num_documents = none` models
the missing `'num_documents'` key), so the returned record does not
contain all six fields of the data model. -/
theorem assessment_empty_input_lacks_passage_count :
    (assess_relevance RELEVANCE_THRESHOLD MIN_CONFIDENCE_SCORE [] []).num_documents = none := by
  simp [assess_relevance]

/-- C6 amended: on every non-empty input the assessment carries all six
fields, with `num_documents` equal to the number of passages; on the
empty input the record carries only the other five fields
(`num_documents` is absent). -/
theorem assessment_passage_count_fields (thr minc : ℚ)
    (docs : List Doc) (scores : List ℚ) (hd : docs ≠ []) (hs : scores ≠ []) :
    (assess_relevance thr minc docs scores).num_documents = some docs.length ∧
    (assess_relevance thr minc [] []).num_documents = none := by
  have hcond : ¬(docs = [] ∨ scores = []) := by
    rintro (h | h) <;> [exact hd h; exact hs h]
  constructor
  · simp only [assess_relevance, if_neg hcond]
  · simp [assess_relevance]

/-- Witness for C6 (amended) at one document and one score. -/
theorem assessment_passage_count_fields_witness :
    ([doc1] : List Doc) ≠ [] ∧ ([(1:ℚ)] : List ℚ) ≠ [] ∧
    ((assess_relevance (1/2) (2/5) [doc1] [1]).num_documents = some ([doc1] : List Doc).length ∧
     (assess_relevance (1/2) (2/5) [] []).num_documents = none) :=
  ⟨by simp, by simp,
   assessment_passage_count_fields (1/2) (2/5) [doc1] [1] (by simp) (by simp)⟩

/-- C7: the insufficiency classifier accepts the canonical insufficient
answer, rejects the canonical informative answer, and in general fires
iff at least one of its fixed case-insensitive patterns matches the
answer text. -/
theorem insufficiency_classifier_examples_and_any_pattern :
    answer_indicates_insufficient_info inputA = true ∧
    answer_indicates_insufficient_info inputB = false ∧
    ∀ a : String, answer_indicates_insufficient_info a = true ↔
      ∃ p ∈ insufficient_patterns, patMatches (a.data.map Char.toLower) p = true := by
  refine ⟨by decide, by decide, ?_⟩
  intro a
  simp [answer_indicates_insufficient_info, List.any_eq_true]

/-- C8 counterexample: the reformulated web query can be empty — for the
question `"?"` both the model-failure path and a degenerate model reply
produce the empty query, so the claimed non-degeneracy guarantee fails. -/
theorem reformulation_can_return_empty_query :
    reformulate_query_for_web none "?" = "" ∧
    reformulate_query_for_web (some "ab") "?" = "" := by
  constructor <;> decide

/-- C8 amended: the reformulation returns the whitespace- and
quote-stripped model reply whenever that reply is at least 3 characters
long and alphanumeric ignoring spaces, and otherwise (including on
model failure) returns the rule-based reformulation; the result is not
guaranteed to be non-empty. -/
theorem reformulation_branches (q reply : String) :
    (3 ≤ (stripChars [Char.ofNat 34, apostrophe] (stripWhitespace reply.data)).length ∧
       isAlnumIgnoringSpaces (stripChars [Char.ofNat 34, apostrophe] (stripWhitespace reply.data)) = true →
     reformulate_query_for_web (some reply) q =
       String.mk (stripChars [Char.ofNat 34, apostrophe] (stripWhitespace reply.data))) ∧
    ((stripChars [Char.ofNat 34, apostrophe] (stripWhitespace reply.data)).length < 3 ∨
       isAlnumIgnoringSpaces (stripChars [Char.ofNat 34, apostrophe] (stripWhitespace reply.data)) = false →
     reformulate_query_for_web (some reply) q = simple_reformulation q) ∧
    reformulate_query_for_web none q = simple_reformulation q := by
  refine ⟨?_, ?_, rfl⟩
  · rintro ⟨h1, h2⟩
    simp only [reformulate_query_for_web]
    rw [if_neg]
    push_neg
    exact ⟨h1, by simp [h2]⟩
  · intro h
    simp only [reformulate_query_for_web]
    rw [if_pos]
    rcases h with h | h
    · exact Or.inl h
    · exact Or.inr (by simp [h])

theorem retrieve_from_kb_needs_web_fallback (env : Env) (s : GState) :
    (retrieve_from_kb env s).needs_web_fallback = s.needs_web_fallback := by
  simp only [retrieve_from_kb]
  split <;> rfl

theorem retrieve_from_kb_web_sources (env : Env) (s : GState) :
    (retrieve_from_kb env s).web_sources = s.web_sources := by
  simp only [retrieve_from_kb]
  split <;> rfl

theorem retrieve_from_kb_assessment (env : Env) (s : GState) :
    (retrieve_from_kb env s).relevance_assessment =
      some (assess_relevance RELEVANCE_THRESHOLD MIN_CONFIDENCE_SCORE
        (retrieve env.vsResults).1 (retrieve env.vsResults).2) := by
  simp only [retrieve_from_kb]
  split <;> rfl

theorem generate_rag_answer_node_flag (env : Env) (s : GState) :
    (generate_rag_answer_node env s).needs_web_fallback =
      (answer_indicates_insufficient_info
          (gen_rag_answer env.ragReply s.question (s.rag_context.getD "") s.rag_sources).answer
        || s.needs_web_fallback) := by
  simp only [generate_rag_answer_node]
  split <;> simp_all

theorem generate_rag_answer_node_kb_sufficient (env : Env) (s : GState) :
    (generate_rag_answer_node env s).is_knowledge_base_sufficient =
      (if answer_indicates_insufficient_info
            (gen_rag_answer env.ragReply s.question (s.rag_context.getD "") s.rag_sources).answer
        then false else s.is_knowledge_base_sufficient) := by
  simp only [generate_rag_answer_node]
  split <;> simp_all

theorem generate_rag_answer_node_assessment (env : Env) (s : GState) :
    (generate_rag_answer_node env s).relevance_assessment = s.relevance_assessment := by
  simp only [generate_rag_answer_node]
  split <;> rfl

theorem generate_rag_answer_node_rag_sources (env : Env) (s : GState) :
    (generate_rag_answer_node env s).rag_sources = s.rag_sources := by
  simp only [generate_rag_answer_node]
  split <;> rfl

theorem generate_rag_answer_node_web_sources (env : Env) (s : GState) :
    (generate_rag_answer_node env s).web_sources = s.web_sources := by
  simp only [generate_rag_answer_node]
  split <;> rfl

theorem generate_rag_answer_node_source_type (env : Env) (s : GState) :
    (generate_rag_answer_node env s).source_type = "knowledge_base" := by
  simp only [generate_rag_answer_node]
  split <;> cases env.ragReply <;> rfl

theorem generate_web_answer_node_flags (env : Env) (s : GState) :
    ((generate_web_answer_node env s).1.needs_web_fallback = s.needs_web_fallback ∧
     (generate_web_answer_node env s).1.is_knowledge_base_sufficient = s.is_knowledge_base_sufficient) ∧
    (generate_web_answer_node env s).1.relevance_assessment = s.relevance_assessment ∧
    (generate_web_answer_node env s).1.rag_sources = s.rag_sources := by
  simp only [generate_web_answer_node]
  split <;> exact ⟨⟨rfl, rfl⟩, rfl, rfl⟩

theorem webPath_final (env : Env) (s : GState) :
    (webPath env s).1 = format_final_output
      (generate_web_answer_node env (search_web_node env (notify_user_fallback s))).1 ∧
    (webPath env s).2 = [.notifyFallback, .searchWeb, .generateWebAnswer, .formatOutput] := by
  exact ⟨rfl, rfl⟩

theorem webPath_flags (env : Env) (s : GState) :
    (webPath env s).1.needs_web_fallback = s.needs_web_fallback ∧
    (webPath env s).1.is_knowledge_base_sufficient = s.is_knowledge_base_sufficient := by
  simp only [webPath, format_final_output]
  have h := generate_web_answer_node_flags env (search_web_node env (notify_user_fallback s))
  simp only [search_web_node, notify_user_fallback] at h
  exact ⟨h.1.1, h.1.2⟩

theorem format_final_output_needs_web_fallback (s : GState) :
    (format_final_output s).needs_web_fallback = s.needs_web_fallback := rfl

theorem format_final_output_kb_sufficient (s : GState) :
    (format_final_output s).is_knowledge_base_sufficient = s.is_knowledge_base_sufficient := rfl

/-- C1: in every workflow run, the `needs_web_fallback` flag ends up
true exactly when the `GenerateKBAnswer` node ran and the insufficiency
classifier fired on the answer it generated; a true flag forces the
sufficiency verdict to false; the web path is entered from the KB
answer node exactly when the flag is true; and the KB answer path is
entered from retrieval exactly when the sufficiency verdict was true. -/
theorem fallback_flag_set_only_by_rag_answer_and_routing (env : Env) (q : String) :
    (NodeTag.generateRagAnswer ∈ (runWorkflow env q).2 ↔
      (retrieve_from_kb env (create_initial_state q)).is_knowledge_base_sufficient = true) ∧
    ((runWorkflow env q).1.needs_web_fallback = true ↔
      (NodeTag.generateRagAnswer ∈ (runWorkflow env q).2 ∧
        answer_indicates_insufficient_info
          (gen_rag_answer env.ragReply
            (retrieve_from_kb env (create_initial_state q)).question
            ((retrieve_from_kb env (create_initial_state q)).rag_context.getD "")
            (retrieve_from_kb env (create_initial_state q)).rag_sources).answer = true)) ∧
    ((runWorkflow env q).1.needs_web_fallback = true →
      (runWorkflow env q).1.is_knowledge_base_sufficient = false) ∧
    ((NodeTag.notifyFallback ∈ (runWorkflow env q).2 ∧
      NodeTag.generateRagAnswer ∈ (runWorkflow env q).2) ↔
      (runWorkflow env q).1.needs_web_fallback = true) := by
  set s0 := create_initial_state q with hs0
  set s1 := retrieve_from_kb env s0 with hs1
  have hflag1 : s1.needs_web_fallback = false := by
    rw [hs1, retrieve_from_kb_needs_web_fallback]
    rfl
  set cl := answer_indicates_insufficient_info
    (gen_rag_answer env.ragReply s1.question (s1.rag_context.getD "") s1.rag_sources).answer
    with hcldef
  set s2 := generate_rag_answer_node env s1 with hs2
  have hflag2 : s2.needs_web_fallback = cl := by
    rw [hs2, generate_rag_answer_node_flag, hflag1, Bool.or_false, hcldef]
  have hkb2 : s2.is_knowledge_base_sufficient
      = (if cl then false else s1.is_knowledge_base_sufficient) := by
    rw [hs2, generate_rag_answer_node_kb_sufficient, hcldef]
  by_cases hkb : s1.is_knowledge_base_sufficient
  · have hr1 : route_after_retrieval s1 = RouteRetrieval.generateRag := by
      simp [route_after_retrieval, hkb]
    by_cases hclv : cl = true
    · have hr2 : route_after_rag_answer s2 = RouteRagAnswer.fallbackToWeb := by
        simp [route_after_rag_answer, hflag2, hclv]
      have hrun : runWorkflow env q
          = ((webPath env s2).1, .retrieveKb :: .generateRagAnswer :: (webPath env s2).2) := by
        simp only [runWorkflow, ← hs0, ← hs1, hr1, ← hs2, hr2]
      rw [hrun]
      have hwf := webPath_flags env s2
      have hwt := (webPath_final env s2).2
      rw [hwt]
      simp only [hwf.1, hwf.2, hflag2, hkb2, hclv, hkb, if_true]
      simp
    · have hclf : cl = false := by
        cases hcl2 : cl
        · rfl
        · exact absurd hcl2 hclv
      have hr2 : route_after_rag_answer s2 = RouteRagAnswer.useRag := by
        simp [route_after_rag_answer, hflag2, hclf]
      have hrun : runWorkflow env q
          = (format_final_output s2, [.retrieveKb, .generateRagAnswer, .formatOutput]) := by
        simp only [runWorkflow, ← hs0, ← hs1, hr1, ← hs2, hr2]
      rw [hrun]
      simp only [format_final_output_needs_web_fallback, format_final_output_kb_sufficient,
        hflag2, hkb2, hclf, hkb]
      simp
  · have hkbf : s1.is_knowledge_base_sufficient = false := by
      cases hkb1 : s1.is_knowledge_base_sufficient
      · rfl
      · exact absurd hkb1 hkb
    have hr1 : route_after_retrieval s1 = RouteRetrieval.fallbackToWeb := by
      simp [route_after_retrieval, hkbf]
    have hrun : runWorkflow env q = ((webPath env s1).1, .retrieveKb :: (webPath env s1).2) := by
      simp only [runWorkflow, ← hs0, ← hs1, hr1]
    rw [hrun]
    have hwf := webPath_flags env s1
    have hwt := (webPath_final env s1).2
    rw [hwt]
    simp only [hwf.1, hwf.2, hflag1, hkbf]
    simp

/-- C4: when the state carries no web results, the `GenerateWebAnswer`
node immediately returns the fixed "neither source" answer with
`source_type = "none"`, and the language model is not invoked. -/
theorem web_answer_zero_results_short_circuits (env : Env) (s : GState)
    (h : s.web_results = []) :
    (generate_web_answer_node env s).1.answer =
      "I apologize, but I couldn" ++ apostropheS ++
        "t find sufficient information in either the knowledge base or the web to answer your question." ∧
    (generate_web_answer_node env s).1.source_type = "none" ∧
    (generate_web_answer_node env s).2 = false := by
  simp [generate_web_answer_node, h]

/-- Witness for C4 on the initial state (no web results recorded). -/
theorem web_answer_zero_results_short_circuits_witness :
    (create_initial_state q5).web_results = [] ∧
    ((generate_web_answer_node envEmpty (create_initial_state q5)).1.answer =
      "I apologize, but I couldn" ++ apostropheS ++
        "t find sufficient information in either the knowledge base or the web to answer your question." ∧
     (generate_web_answer_node envEmpty (create_initial_state q5)).1.source_type = "none" ∧
     (generate_web_answer_node envEmpty (create_initial_state q5)).2 = false) :=
  ⟨rfl, web_answer_zero_results_short_circuits envEmpty (create_initial_state q5) rfl⟩

/-- C10: the zero-web-results branch of `GenerateWebAnswer` modifies
only `answer` and `source_type`, leaving every other state field
(citations, web sources, flags, ...) at its prior value; consequently a
run whose KB answer tripped the classifier and whose web search came
back empty terminates with `source_type = "none"` while still carrying
the KB answer's citations `"[1] Page 1"`. -/
theorem web_answer_zero_results_frame (env : Env) (s : GState)
    (h : s.web_results = []) :
    (generate_web_answer_node env s).1 =
      { s with
        answer := "I apologize, but I couldn" ++ apostropheS ++
          "t find sufficient information in either the knowledge base or the web to answer your question."
        source_type := "none" } ∧
    ((runWorkflow envC10 q5).1.source_type = "none" ∧
     (runWorkflow envC10 q5).1.needs_web_fallback = true ∧
     (runWorkflow envC10 q5).1.citations = "[1] Page 1") := by
  constructor
  · simp [generate_web_answer_node, h]
  · norm_num +decide [runWorkflow, retrieve_from_kb, generate_rag_answer_node, notify_user_fallback,
      search_web_node, generate_web_answer_node, format_final_output, webPath,
      route_after_retrieval, route_after_rag_answer, List.range_succ, List.range_zero,
      retrieve, envC10, envC5, normalize_score, assess_relevance, calculate_relevance_score, listMax,
      RELEVANCE_THRESHOLD, MIN_CONFIDENCE_SCORE, create_initial_state,
      gen_rag_answer, gen_web_answer, get_source_metadata, get_source_metadata_go,
      doc1, format_context, format_citations_pdf, meta1]

/-- Witness for C10 on the initial state. -/
theorem web_answer_zero_results_frame_witness :
    (create_initial_state q5).web_results = [] ∧
    (generate_web_answer_node envEmpty (create_initial_state q5)).1 =
      { create_initial_state q5 with
        answer := "I apologize, but I couldn" ++ apostropheS ++
          "t find sufficient information in either the knowledge base or the web to answer your question."
        source_type := "none" } :=
  ⟨rfl, (web_answer_zero_results_frame envEmpty (create_initial_state q5) rfl).1⟩

/-- C5 counterexample: a run whose KB answer trips the classifier and
whose web search succeeds ends with `source_type = "web"` and two web
sources, yet `metadata num_sources` is `1` — the count of the KB
sources recorded during retrieval, not the count of the web sources the
answering path used. -/
theorem format_output_source_count_web_path_counterexample :
    (runWorkflow envC5 q5).1.source_type = "web" ∧
    (runWorkflow envC5 q5).1.web_sources.length = 2 ∧
    (runWorkflow envC5 q5).1.md_num_sources = some 1 ∧
    (runWorkflow envC5 q5).1.md_num_sources ≠
      some (runWorkflow envC5 q5).1.web_sources.length := by
  norm_num +decide [runWorkflow, retrieve_from_kb, generate_rag_answer_node, notify_user_fallback,
    search_web_node, generate_web_answer_node, format_final_output, webPath,
    route_after_retrieval, route_after_rag_answer, List.range_succ, List.range_zero,
    retrieve, envC5, normalize_score, assess_relevance, calculate_relevance_score, listMax,
    RELEVANCE_THRESHOLD, MIN_CONFIDENCE_SCORE, create_initial_state,
    gen_rag_answer, gen_web_answer, get_source_metadata, get_source_metadata_go,
    doc1, w1, w2, format_context]

theorem gen_web_answer_source_type (r : Option String) (q : String) (wr : List WebResult) :
    (gen_web_answer r q wr).source_type = "web" := by
  cases r <;> rfl

theorem generate_web_answer_node_source_type_ne_kb (env : Env) (s : GState) :
    (generate_web_answer_node env s).1.source_type ≠ "knowledge_base" := by
  simp only [generate_web_answer_node]
  split
  · simp
  · simp [gen_web_answer_source_type]

theorem webPath_assessment (env : Env) (s : GState) :
    (webPath env s).1.relevance_assessment = s.relevance_assessment := by
  simp only [webPath, format_final_output]
  have h := (generate_web_answer_node_flags env (search_web_node env (notify_user_fallback s))).2.1
  simp only [search_web_node, notify_user_fallback] at h
  exact h

theorem webPath_source_type_ne_kb (env : Env) (s : GState) :
    (webPath env s).1.source_type ≠ "knowledge_base" := by
  simp only [webPath, format_final_output]
  exact generate_web_answer_node_source_type_ne_kb env (search_web_node env (notify_user_fallback s))

theorem webPath_md_confidence (env : Env) (s : GState) :
    (webPath env s).1.md_confidence
      = some (match s.relevance_assessment with
              | some a => a.confidence | none => 0) := by
  rw [show (webPath env s).1.md_confidence
      = some (match (webPath env s).1.relevance_assessment with
              | some a => a.confidence | none => 0) from rfl,
    webPath_assessment]

theorem format_final_output_num_sources (s : GState) :
    ((format_final_output s).rag_sources ≠ [] →
      (format_final_output s).md_num_sources = some (format_final_output s).rag_sources.length) ∧
    ((format_final_output s).rag_sources = [] →
      (format_final_output s).md_num_sources = some (format_final_output s).web_sources.length) := by
  constructor <;> intro h <;> simp [format_final_output] at h ⊢ <;> simp [h]

theorem runWorkflow_final_is_format (env : Env) (q : String) :
    ∃ X, (runWorkflow env q).1 = format_final_output X := by
  simp only [runWorkflow, webPath]
  cases route_after_retrieval (retrieve_from_kb env (create_initial_state q))
  · cases route_after_rag_answer
      (generate_rag_answer_node env (retrieve_from_kb env (create_initial_state q)))
    · exact ⟨_, rfl⟩
    · exact ⟨_, rfl⟩
  · exact ⟨_, rfl⟩

/-- C5 amended: after `FormatOutput`, metadata `confidence` is the
confidence of the assessment recorded during retrieval (`0` when none
was recorded), and `num_sources` is the count of the recorded KB
sources whenever there are any — in particular whenever the final
`source_type` is `knowledge_base` — and the count of web sources only
when no KB sources were recorded.  (A web-path run that had retrieved
KB documents therefore reports the KB source count.) -/
theorem format_output_metadata_amended (env : Env) (q : String) :
    (runWorkflow env q).1.md_confidence =
      some (match (retrieve_from_kb env (create_initial_state q)).relevance_assessment with
            | some a => a.confidence
            | none => 0) ∧
    ((runWorkflow env q).1.source_type = "knowledge_base" →
      (runWorkflow env q).1.md_num_sources = some (runWorkflow env q).1.rag_sources.length) ∧
    ((runWorkflow env q).1.rag_sources ≠ [] →
      (runWorkflow env q).1.md_num_sources = some (runWorkflow env q).1.rag_sources.length) ∧
    ((runWorkflow env q).1.rag_sources = [] →
      (runWorkflow env q).1.md_num_sources = some (runWorkflow env q).1.web_sources.length) := by
  set s0 := create_initial_state q with hs0
  set s1 := retrieve_from_kb env s0 with hs1
  set s2 := generate_rag_answer_node env s1 with hs2
  refine ⟨?_, ?_, ?_, ?_⟩
  case refine_3 =>
    obtain ⟨X, hX⟩ := runWorkflow_final_is_format env q
    rw [hX]
    exact (format_final_output_num_sources X).1
  case refine_4 =>
    obtain ⟨X, hX⟩ := runWorkflow_final_is_format env q
    rw [hX]
    exact (format_final_output_num_sources X).2
  all_goals
    by_cases hkb : s1.is_knowledge_base_sufficient
  -- md_confidence, KB branch
  · have hr1 : route_after_retrieval s1 = RouteRetrieval.generateRag := by
      simp [route_after_retrieval, hkb]
    cases hr2 : route_after_rag_answer s2
    · have hrun : runWorkflow env q
          = (format_final_output s2, [.retrieveKb, .generateRagAnswer, .formatOutput]) := by
        simp only [runWorkflow, ← hs0, ← hs1, hr1, ← hs2, hr2]
      rw [hrun]
      show (format_final_output s2).md_confidence = _
      rw [show (format_final_output s2).md_confidence
          = some (match s2.relevance_assessment with
                  | some a => a.confidence | none => 0) from rfl,
        hs2, generate_rag_answer_node_assessment]
    · have hrun : runWorkflow env q
          = ((webPath env s2).1, .retrieveKb :: .generateRagAnswer :: (webPath env s2).2) := by
        simp only [runWorkflow, ← hs0, ← hs1, hr1, ← hs2, hr2]
      rw [hrun]
      show (webPath env s2).1.md_confidence = _
      rw [webPath_md_confidence, hs2, generate_rag_answer_node_assessment]
  -- md_confidence, fallback-at-retrieval branch
  · have hkbf : s1.is_knowledge_base_sufficient = false := by
      cases h : s1.is_knowledge_base_sufficient
      · rfl
      · exact absurd h hkb
    have hr1 : route_after_retrieval s1 = RouteRetrieval.fallbackToWeb := by
      simp [route_after_retrieval, hkbf]
    have hrun : runWorkflow env q = ((webPath env s1).1, .retrieveKb :: (webPath env s1).2) := by
      simp only [runWorkflow, ← hs0, ← hs1, hr1]
    rw [hrun]
    show (webPath env s1).1.md_confidence = _
    rw [webPath_md_confidence]
  -- source_type = knowledge_base implication, KB branch
  · have hr1 : route_after_retrieval s1 = RouteRetrieval.generateRag := by
      simp [route_after_retrieval, hkb]
    cases hr2 : route_after_rag_answer s2
    · have hrun : runWorkflow env q
          = (format_final_output s2, [.retrieveKb, .generateRagAnswer, .formatOutput]) := by
        simp only [runWorkflow, ← hs0, ← hs1, hr1, ← hs2, hr2]
      rw [hrun]
      intro _
      have hweb2 : s2.web_sources = [] := by
        rw [hs2, generate_rag_answer_node_web_sources, hs1, retrieve_from_kb_web_sources]
        rfl
      show (format_final_output s2).md_num_sources = some (format_final_output s2).rag_sources.length
      show some (if s2.rag_sources ≠ [] then s2.rag_sources.length else s2.web_sources.length)
        = some s2.rag_sources.length
      by_cases hr : s2.rag_sources = []
      · simp [hr, hweb2]
      · simp [hr]
    · have hrun : runWorkflow env q
          = ((webPath env s2).1, .retrieveKb :: .generateRagAnswer :: (webPath env s2).2) := by
        simp only [runWorkflow, ← hs0, ← hs1, hr1, ← hs2, hr2]
      rw [hrun]
      intro h
      exact absurd h (webPath_source_type_ne_kb env s2)
  -- source_type = knowledge_base implication, fallback-at-retrieval branch
  · have hkbf : s1.is_knowledge_base_sufficient = false := by
      cases h : s1.is_knowledge_base_sufficient
      · rfl
      · exact absurd h hkb
    have hr1 : route_after_retrieval s1 = RouteRetrieval.fallbackToWeb := by
      simp [route_after_retrieval, hkbf]
    have hrun : runWorkflow env q = ((webPath env s1).1, .retrieveKb :: (webPath env s1).2) := by
      simp only [runWorkflow, ← hs0, ← hs1, hr1]
    rw [hrun]
    intro h
    exact absurd h (webPath_source_type_ne_kb env s1)

theorem mem_dedupFirst (l : List Nat) : ∀ (seen : List Nat) (x : Nat),
    x ∈ dedupFirst seen l ↔ x ∈ l ∧ x ∉ seen := by
  induction l with
  | nil => intro seen x; simp [dedupFirst]
  | cons p rest ih =>
    intro seen x
    by_cases hp : p ∈ seen
    · rw [dedupFirst, if_pos hp, ih]
      constructor
      · rintro ⟨h1, h2⟩
        exact ⟨List.mem_cons_of_mem p h1, h2⟩
      · rintro ⟨h1, h2⟩
        rcases List.mem_cons.mp h1 with rfl | h1
        · exact absurd hp h2
        · exact ⟨h1, h2⟩
    · rw [dedupFirst, if_neg hp]
      constructor
      · intro h
        rcases List.mem_cons.mp h with rfl | h
        · exact ⟨List.mem_cons_self x rest, hp⟩
        · obtain ⟨h1, h2⟩ := (ih (p :: seen) x).mp h
          exact ⟨List.mem_cons_of_mem p h1, fun hx => h2 (List.mem_cons_of_mem p hx)⟩
      · rintro ⟨h1, h2⟩
        rcases List.mem_cons.mp h1 with rfl | h1
        · exact List.mem_cons_self x _
        · by_cases hxp : x = p
          · subst hxp; exact List.mem_cons_self x _
          · exact List.mem_cons_of_mem p
              ((ih (p :: seen) x).mpr ⟨h1, by simp [hxp, h2]⟩)

theorem get_source_metadata_go_cons_none (seen : List Nat) (d : Doc) (rest : List Doc)
    (hd : d.page = none) :
    get_source_metadata_go seen (d :: rest) = get_source_metadata_go seen rest := by
  obtain ⟨c, pg, sr⟩ := d
  cases hd
  rfl

theorem get_source_metadata_go_cons_some (seen : List Nat) (d : Doc) (rest : List Doc)
    (p : Nat) (hd : d.page = some p) :
    get_source_metadata_go seen (d :: rest) =
      if p ≠ 0 ∧ p ∉ seen then
        { page := p, src := d.src.getD "Unknown", preview := d.content.take 200 ++ "..." } ::
          get_source_metadata_go (p :: seen) rest
      else get_source_metadata_go seen rest := by
  obtain ⟨c, pg, sr⟩ := d
  cases hd
  rfl

theorem truthyPage_none (d : Doc) (hd : d.page = none) : truthyPage d = none := by
  obtain ⟨c, pg, sr⟩ := d
  cases hd
  rfl

theorem truthyPage_some (d : Doc) (p : Nat) (hd : d.page = some p) :
    truthyPage d = if p ≠ 0 then some p else none := by
  obtain ⟨c, pg, sr⟩ := d
  cases hd
  rfl

theorem get_source_metadata_go_pages (docs : List Doc) : ∀ seen : List Nat,
    (get_source_metadata_go seen docs).map (fun m => m.page)
      = dedupFirst seen (docs.filterMap truthyPage) := by
  induction docs with
  | nil => intro seen; rfl
  | cons d rest ih =>
    intro seen
    cases hd : d.page with
    | none =>
      rw [get_source_metadata_go_cons_none seen d rest hd,
        List.filterMap_cons_none (truthyPage_none d hd)]
      exact ih seen
    | some p =>
      by_cases hp : p = 0
      · subst hp
        rw [get_source_metadata_go_cons_some seen d rest 0 hd,
          if_neg (by simp),
          List.filterMap_cons_none (by rw [truthyPage_some d 0 hd]; simp)]
        exact ih seen
      · rw [get_source_metadata_go_cons_some seen d rest p hd,
          List.filterMap_cons_some (by rw [truthyPage_some d p hd, if_pos hp])]
        by_cases hseen : p ∈ seen
        · rw [if_neg (by simp [hseen]), dedupFirst, if_pos hseen]
          exact ih seen
        · rw [if_pos ⟨hp, hseen⟩, dedupFirst, if_neg hseen, List.map_cons]
          exact congrArg (p :: ·) (ih (p :: seen))

theorem get_source_metadata_go_entries (docs : List Doc) : ∀ seen : List Nat,
    ∀ m ∈ get_source_metadata_go seen docs,
      m.page ≠ 0 ∧ m.page ∉ seen ∧
      ∃ d, docs.find? (fun x => x.page == some m.page) = some d ∧
        m.src = d.src.getD "Unknown" ∧ m.preview = d.content.take 200 ++ "..." ∧
        d.page = some m.page := by
  induction docs with
  | nil => intro seen m hm; cases hm
  | cons d rest ih =>
    intro seen m hm
    cases hd : d.page with
    | none =>
      rw [get_source_metadata_go_cons_none seen d rest hd] at hm
      obtain ⟨h0, hs, e, he, hrest⟩ := ih seen m hm
      refine ⟨h0, hs, e, ?_, hrest⟩
      rw [List.find?_cons_of_neg, he]
      simp [hd]
    | some p =>
      by_cases hcond : p ≠ 0 ∧ p ∉ seen
      · rw [get_source_metadata_go_cons_some seen d rest p hd, if_pos hcond] at hm
        rcases List.mem_cons.mp hm with rfl | hm
        · refine ⟨hcond.1, hcond.2, d, ?_, rfl, rfl, hd⟩
          rw [List.find?_cons_of_pos]
          simp [hd]
        · obtain ⟨h0, hs, e, he, hrest⟩ := ih (p :: seen) m hm
          have hne : m.page ≠ p := fun h => hs (h ▸ List.mem_cons_self p seen)
          refine ⟨h0, fun hx => hs (List.mem_cons_of_mem p hx), e, ?_, hrest⟩
          rw [List.find?_cons_of_neg, he]
          simp [hd, hne.symm]
      · rw [get_source_metadata_go_cons_some seen d rest p hd, if_neg hcond] at hm
        obtain ⟨h0, hs, e, he, hrest⟩ := ih seen m hm
        have hne : m.page ≠ p := by
          rcases not_and_or.mp hcond with h | h
          · rw [not_not] at h
            subst h
            exact h0
          · rw [not_not] at h
            exact fun he2 => hs (he2 ▸ h)
        refine ⟨h0, hs, e, ?_, hrest⟩
        rw [List.find?_cons_of_neg, he]
        simp [hd, hne.symm]

/-- C9 counterexample: a document whose page locator is missing, or is
the falsy value `0`, yields no source-metadata entry at all, so such a
document is not represented in the output. -/
theorem source_metadata_drops_falsy_locator_docs :
    get_source_metadata [docNoPage] = [] ∧
    get_source_metadata [docPage0] = [] ∧
    ([docNoPage] : List Doc).length = 1 ∧ ([docPage0] : List Doc).length = 1 := by
  refine ⟨rfl, rfl, rfl, rfl⟩

/-- C9 amended: restricted to documents bearing a truthy (present,
non-zero) page locator, `get_source_metadata` returns exactly one entry
per distinct locator in order of first occurrence (later duplicates
dropped); every document with a truthy locator is represented by an
entry for its locator; and each entry is built from the first document
carrying that locator, with the fixed-length preview
`content[:200] ++ "..."`.  Documents whose locator is missing or `0`
are silently dropped. -/
theorem source_metadata_first_occurrence_dedup (docs : List Doc) :
    (get_source_metadata docs).map (fun m => m.page)
      = dedupFirst [] (docs.filterMap truthyPage) ∧
    (∀ d ∈ docs, ∀ p, truthyPage d = some p →
      ∃ m ∈ get_source_metadata docs, m.page = p) ∧
    (∀ m ∈ get_source_metadata docs,
      ∃ d, docs.find? (fun x => x.page == some m.page) = some d ∧
        m.src = d.src.getD "Unknown" ∧ m.preview = d.content.take 200 ++ "..." ∧
        d.page = some m.page) := by
  refine ⟨get_source_metadata_go_pages docs [], ?_, ?_⟩
  · intro d hd p hp
    have h1 : p ∈ docs.filterMap truthyPage := List.mem_filterMap.mpr ⟨d, hd, hp⟩
    have h2 : p ∈ dedupFirst [] (docs.filterMap truthyPage) :=
      (mem_dedupFirst _ _ _).mpr ⟨h1, by simp⟩
    rw [← get_source_metadata_go_pages docs []] at h2
    obtain ⟨m, hm, hmp⟩ := List.mem_map.mp h2
    exact ⟨m, hm, hmp⟩
  · intro m hm
    exact (get_source_metadata_go_entries docs [] m hm).2.2
